import Mathlib

/-!
Shallow embedding of the CHIP-8 interpreter of `src/emulator.rs`
(`Chip8::emulate_insn`, `Chip8::step`, `Chip8::set_key`), used to settle the
specification's claims about the instruction semantics.

Modelling conventions:
* machine integers are `Nat` with an explicit `% 256` / `% 65536` at every
  place where Rust truncates (`as u8`, `u8` shifts, wrapping adds);
* Rust array/`Vec` indexing is bounds-checked, so an out-of-bounds index is
  modelled by the `panic` outcome; the `todo!()` placeholder of the `Fx0A`
  arm is likewise a `panic`;
* `emulate_insn` takes `&mut self` and may `return Err(..)` after having
  already advanced the PC and ticked the timers, so an error outcome carries
  the machine state as mutated so far;
* the hardware random source (`_rdrand16_step`) is an explicit oracle
  argument `rnd` (the 16-bit value the intrinsic would produce).
-/

namespace Chip8Emu

set_option maxRecDepth 100000
set_option maxHeartbeats 1600000

/-- Mirrors `enum Chip8Error` of `src/emulator.rs`. -/
inductive Chip8Error where
  | UnknownOpcode (op : Nat)
  | UndefinedHexadecimal (v : Nat)
  | StackOverflow
  | StackUnderflow
  | VregsOverflow
  | MemoryFull
  | WrongKey

/-- Mirrors `struct Chip8` of `src/emulator.rs`: 4K byte memory, program
counter, call stack (a growable `Vec`, top at the head here), sixteen data
registers, the address register `i`, the two timers and the 16 keyboard
flags. -/
structure Chip8 where
  mem : Nat → Nat
  pc : Nat
  sp : List Nat
  vregs : Nat → Nat
  i : Nat
  delay_timer : Nat
  sound_timer : Nat
  keyboard : Nat → Bool

/-- Result of one `emulate_insn` call: normal return, error return carrying
the state as mutated so far (`&mut self` semantics), or a Rust panic. -/
inductive StepOutcome where
  | ok (s : Chip8)
  | err (e : Chip8Error) (s : Chip8)
  | panic

def MEMSIZE : Nat := 4096
def DISPLAY_OFFSET : Nat := 0xF00
def DISPLAY_SIZE : Nat := 256
def KEYBOARD_SIZE : Nat := 16
def OPCODE_SIZE : Nat := 2

/-- Functional update of a register file / byte array. -/
def updV (f : Nat → Nat) (x v : Nat) : Nat → Nat := fun j => if j = x then v else f j

/-- `(opcode & 0x0F00) >> 8`. -/
def opX (w : Nat) : Nat := (w &&& 0x0F00) >>> 8
/-- `(opcode & 0x00F0) >> 4`. -/
def opY (w : Nat) : Nat := (w &&& 0x00F0) >>> 4
/-- `opcode & 0xF`. -/
def opN (w : Nat) : Nat := w &&& 0xF
/-- `opcode & 0xFF`. -/
def opKK (w : Nat) : Nat := w &&& 0xFF
/-- `opcode & 0xFFF`. -/
def opNNN (w : Nat) : Nat := w &&& 0xFFF

/-- The fetch `(mem[pc] as u16) << 8 | mem[pc + 1] as u16`. -/
def fetched (s : Chip8) : Nat := ((s.mem s.pc) <<< 8) ||| (s.mem (s.pc + 1))

/-- One timer tick: `if t > 0 { t -= 1 }`. -/
def tickT (t : Nat) : Nat := if 0 < t then t - 1 else t

/-- The unconditional prologue of `emulate_insn`: `pc += OPCODE_SIZE` and
both timers ticked. -/
def tickAdvance (s : Chip8) : Chip8 :=
  { s with pc := s.pc + OPCODE_SIZE,
           delay_timer := tickT s.delay_timer,
           sound_timer := tickT s.sound_timer }

/-- `get_copy_of_framebuffer`: the 256 bytes at `DISPLAY_OFFSET` as a list. -/
def getFbCopy (s : Chip8) : List Nat :=
  (List.range DISPLAY_SIZE).map fun k => s.mem (DISPLAY_OFFSET + k)

/-- Committing the working copy back into the display region of memory. -/
def commitFb (s : Chip8) (fb : List Nat) : Chip8 :=
  { s with mem := fun a =>
      if DISPLAY_OFFSET ≤ a ∧ a < DISPLAY_OFFSET + DISPLAY_SIZE then
        fb.getD (a - DISPLAY_OFFSET) 0
      else s.mem a }

/-- The `00E0` CLS arm: zero the display region. -/
def clearScreen (s : Chip8) : Chip8 :=
  { s with mem := fun a =>
      if DISPLAY_OFFSET ≤ a ∧ a < DISPLAY_OFFSET + DISPLAY_SIZE then 0
      else s.mem a }

/-- `fb_copy[idx] ^= v` on the framebuffer working copy. -/
def fbXorAt (fb : List Nat) (idx v : Nat) : List Nat :=
  fb.set idx ((fb.getD idx 0) ^^^ v)

/-- The row loop of the `0xD000` DRAW arm, iterating over the sprite bytes
with their enumeration index `idx`. A row whose checked index
`start_idx + (vy + idx) * 8` exceeds 255 is skipped; in the unaligned case
the second write `fb_copy[end_idx + (vy + idx) * 8]` is bounds-checked by
`Vec` indexing, so an out-of-range second index is a panic (`none`). The
`u8` left shift truncates, hence the `% 256`. -/
def drawLoop (vx vy : Nat) : Nat → List Nat → List Nat → Option (List Nat)
  | _, [], fb => some fb
  | idx, p :: rest, fb =>
    let start_idx := vx / 8
    let end_idx := (vx + 7) / 8
    let offset := vx % 8
    if start_idx + (vy + idx) * 8 > 255 then
      drawLoop vx vy (idx + 1) rest fb
    else if offset = 0 then
      drawLoop vx vy (idx + 1) rest (fbXorAt fb (start_idx + (vy + idx) * 8) p)
    else
      let fb1 := fbXorAt fb (start_idx + (vy + idx) * 8) (p >>> offset)
      if end_idx + (vy + idx) * 8 < fb1.length then
        drawLoop vx vy (idx + 1) rest
          (fbXorAt fb1 (end_idx + (vy + idx) * 8) ((p <<< (8 - offset)) % 256))
      else
        none

/-- The `0x0000` arm of the dispatch: CLS (`00E0`), RET (`00EE`), and the
ignored SYS for every other `0x0nnn` word. -/
def exec0 (s : Chip8) (w : Nat) : StepOutcome :=
  if w = 0x00E0 then .ok (clearScreen s)
  else if w = 0x00EE then
    match s.sp with
    | [] => .err .StackUnderflow s
    | r :: rest => .ok { s with pc := r, sp := rest }
  else .ok s

/-- The `0x8000` arm of the dispatch (`match opcode & 0x000F`): the ALU
operations. In `8xy4` the sum is computed from the pre-instruction
registers, the carry is written to `VF` first and the wrapped sum written to
`Vx` afterwards; in `8xy5`, `8xy6`, `8xy7` and `8xyE` the flag write to `VF`
happens first and the second line then reads the updated register file. -/
def exec8 (s : Chip8) (w : Nat) : StepOutcome :=
  if w &&& 0xF = 0x0 then .ok { s with vregs := updV s.vregs (opX w) (s.vregs (opY w)) }
  else if w &&& 0xF = 0x1 then
    .ok { s with vregs := updV s.vregs (opX w) ((s.vregs (opX w)) ||| (s.vregs (opY w))) }
  else if w &&& 0xF = 0x2 then
    .ok { s with vregs := updV s.vregs (opX w) ((s.vregs (opX w)) &&& (s.vregs (opY w))) }
  else if w &&& 0xF = 0x3 then
    .ok { s with vregs := updV s.vregs (opX w) ((s.vregs (opX w)) ^^^ (s.vregs (opY w))) }
  else if w &&& 0xF = 0x4 then
    .ok { s with vregs :=
            (updV (updV s.vregs 0xF (if 255 < s.vregs (opX w) + s.vregs (opY w) then 1 else 0))
              (opX w) ((s.vregs (opX w) + s.vregs (opY w)) % 256)) }
  else if w &&& 0xF = 0x5 then
    .ok (let v1 := updV s.vregs 0xF (if s.vregs (opY w) < s.vregs (opX w) then 1 else 0)
         { s with vregs :=
             (updV v1 (opX w) ((((v1 (opX w) : Int) - (v1 (opY w) : Int)) % 256).toNat)) })
  else if w &&& 0xF = 0x6 then
    .ok (let v1 := updV s.vregs 0xF (if s.vregs (opX w) &&& 0x1 = 0x1 then 1 else 0)
         { s with vregs := updV v1 (opX w) (v1 (opX w) / 2) })
  else if w &&& 0xF = 0x7 then
    .ok (let v1 := updV s.vregs 0xF (if s.vregs (opX w) < s.vregs (opY w) then 1 else 0)
         { s with vregs :=
             (updV v1 (opX w) ((((v1 (opY w) : Int) - (v1 (opX w) : Int)) % 256).toNat)) })
  else if w &&& 0xF = 0xE then
    .ok (let v1 := updV s.vregs 0xF (if s.vregs (opX w) &&& 0x80 = 0x80 then 1 else 0)
         { s with vregs := updV v1 (opX w) ((v1 (opX w) * 2) % 256) })
  else .err (.UnknownOpcode w) s

/-- The `0xD000` DRAW arm: read `vx`, `vy` and the sprite slice, zero `VF`,
run the row loop on a working copy of the framebuffer, then compare and
commit. The sprite slice `&mem[i..i+n]` is itself bounds-checked. -/
def execD (s : Chip8) (w : Nat) : StepOutcome :=
  if s.i + opN w ≤ MEMSIZE then
    let sprite := (List.range (opN w)).map fun k => s.mem (s.i + k)
    let s1 := { s with vregs := updV s.vregs 0xF 0 }
    match drawLoop (s.vregs (opX w)) (s.vregs (opY w)) 0 sprite (getFbCopy s1) with
    | none => .panic
    | some fb1 =>
      if getFbCopy s1 = fb1 then .ok s1
      else .ok (commitFb { s1 with vregs := updV s1.vregs 0xF 1 } fb1)
  else .panic

/-- The `0xE000` arm: SKP / SKNP. `self.keyboard[vx]` is an unchecked index
into the 16-entry keyboard array, hence the panic case. -/
def execE (s : Chip8) (w : Nat) : StepOutcome :=
  if w &&& 0xFF = 0x9E then
    if s.vregs (opX w) < KEYBOARD_SIZE then
      .ok (if s.keyboard (s.vregs (opX w)) then { s with pc := s.pc + OPCODE_SIZE } else s)
    else .panic
  else if w &&& 0xFF = 0xA1 then
    if s.vregs (opX w) < KEYBOARD_SIZE then
      .ok (if ¬ s.keyboard (s.vregs (opX w)) then { s with pc := s.pc + OPCODE_SIZE } else s)
    else .panic
  else .err (.UnknownOpcode w) s

/-- The `0xF000` arm (`match opcode & 0xFF`). `Fx0A` is the `todo!()`
placeholder; `Fx33`, `Fx55` and `Fx65` index memory with bounds checks. -/
def execF (s : Chip8) (w : Nat) : StepOutcome :=
  if w &&& 0xFF = 0x07 then
    .ok { s with vregs := updV s.vregs (opX w) (s.delay_timer % 256) }
  else if w &&& 0xFF = 0x0A then .panic
  else if w &&& 0xFF = 0x15 then .ok { s with delay_timer := s.vregs (opX w) }
  else if w &&& 0xFF = 0x18 then .ok { s with sound_timer := s.vregs (opX w) }
  else if w &&& 0xFF = 0x1E then .ok { s with i := (s.i + s.vregs (opX w)) % 65536 }
  else if w &&& 0xFF = 0x29 then
    if 16 ≤ s.vregs (opX w) then .err (.UndefinedHexadecimal (s.vregs (opX w))) s
    else .ok { s with i := 0 + 5 * s.vregs (opX w) }
  else if w &&& 0xFF = 0x33 then
    if s.i + 2 < MEMSIZE then
      .ok { s with mem := (fun a =>
        if a = s.i then (s.vregs (opX w) / 100) % 10
        else if a = s.i + 1 then (s.vregs (opX w) / 10) % 10
        else if a = s.i + 2 then s.vregs (opX w) % 10
        else s.mem a) }
    else .panic
  else if w &&& 0xFF = 0x55 then
    if s.i + opX w < MEMSIZE then
      .ok { s with mem := (fun a =>
        if s.i ≤ a ∧ a ≤ s.i + opX w then s.vregs (a - s.i) else s.mem a) }
    else .panic
  else if w &&& 0xFF = 0x65 then
    if s.i + opX w < MEMSIZE then
      .ok { s with vregs := fun j => if j ≤ opX w then s.mem (s.i + j) else s.vregs j }
    else .panic
  else .err (.UnknownOpcode w) s

/-- The dispatch of `Chip8::emulate_insn` after fetch, PC advance and timer
tick: `s` is the machine state at dispatch time, `w` the fetched word and
`rnd` the oracle value for the random source. Each branch mirrors one arm of
the `match opcode & 0xF000` in `src/emulator.rs`. -/
def execOp (rnd : Nat) (s : Chip8) (w : Nat) : StepOutcome :=
  if w &&& 0xF000 = 0x0000 then exec0 s w
  else if w &&& 0xF000 = 0x1000 then .ok { s with pc := opNNN w }
  else if w &&& 0xF000 = 0x2000 then .ok { s with sp := s.pc :: s.sp, pc := opNNN w }
  else if w &&& 0xF000 = 0x3000 then
    .ok (if s.vregs (opX w) = opKK w then { s with pc := s.pc + OPCODE_SIZE } else s)
  else if w &&& 0xF000 = 0x4000 then
    .ok (if s.vregs (opX w) ≠ opKK w then { s with pc := s.pc + OPCODE_SIZE } else s)
  else if w &&& 0xF000 = 0x5000 then
    if w &&& 0xF = 0x0 then
      .ok (if s.vregs (opX w) = s.vregs (opY w) then { s with pc := s.pc + OPCODE_SIZE } else s)
    else .err (.UnknownOpcode w) s
  else if w &&& 0xF000 = 0x6000 then .ok { s with vregs := updV s.vregs (opX w) (opKK w) }
  else if w &&& 0xF000 = 0x7000 then
    .ok { s with vregs := updV s.vregs (opX w) ((s.vregs (opX w) + opKK w) % 256) }
  else if w &&& 0xF000 = 0x8000 then exec8 s w
  else if w &&& 0xF000 = 0x9000 then
    if w &&& 0xF = 0x0 then
      .ok (if s.vregs (opX w) ≠ s.vregs (opY w) then { s with pc := s.pc + OPCODE_SIZE } else s)
    else .err (.UnknownOpcode w) s
  else if w &&& 0xF000 = 0xA000 then .ok { s with i := opNNN w }
  else if w &&& 0xF000 = 0xB000 then .ok { s with pc := opNNN w + s.vregs 0 }
  else if w &&& 0xF000 = 0xC000 then
    .ok { s with vregs := updV s.vregs (opX w) ((rnd % 256) &&& opKK w) }
  else if w &&& 0xF000 = 0xD000 then execD s w
  else if w &&& 0xF000 = 0xE000 then execE s w
  else if w &&& 0xF000 = 0xF000 then execF s w
  else .err (.UnknownOpcode w) s

/-- `Chip8::emulate_insn`: fetch (bounds-checked against the 4096-byte
memory), advance PC, tick the timers, dispatch. -/
def emulateInsn (rnd : Nat) (s : Chip8) : StepOutcome :=
  if s.pc + 1 < MEMSIZE then execOp rnd (tickAdvance s) (fetched s)
  else .panic

/-- `Chip8::step` just forwards to `emulate_insn`. -/
def step (rnd : Nat) (s : Chip8) : StepOutcome := emulateInsn rnd s

/-- `Chip8::set_key`: guarded write into the 16 keyboard flags. -/
def setKey (s : Chip8) (key : Nat) (pressed : Bool) : Chip8 :=
  if key < KEYBOARD_SIZE then
    { s with keyboard := fun j => if j = key then pressed else s.keyboard j }
  else s

/-- Observer: the state after a successful `step`, if any. -/
def afterOk (rnd : Nat) (s : Chip8) : Option Chip8 :=
  match step rnd s with
  | .ok t => some t
  | _ => none

/-- Observer: the machine state carried by a non-panicking outcome (both a
normal return and an error return leave `self` in a definite state). -/
def outState : StepOutcome → Option Chip8
  | .ok t => some t
  | .err _ t => some t
  | .panic => none

/-- Observer: `n` successive successful `step`s. -/
def stepsOk (rnd : Nat) : Nat → Chip8 → Option Chip8
  | 0, s => some s
  | n + 1, s =>
    match step rnd s with
    | .ok t => stepsOk rnd n t
    | _ => none

/-- A memory image from an association list, all other bytes zero. -/
def memOf (l : List (Nat × Nat)) : Nat → Nat := fun a => (l.lookup a).getD 0

/-- The freshly constructed machine of `Chip8::new`. -/
def baseState : Chip8 :=
  { mem := fun _ => 0, pc := 0x200, sp := [], vregs := fun _ => 0, i := 0,
    delay_timer := 0, sound_timer := 0, keyboard := fun _ => false }

/-- The fetched words that fall through every recognized arm of the dispatch
(the `_ => return Err(Chip8Error::UnknownOpcode(opcode))` cases of
`emulate_insn`). -/
def UnrecognizedOp (w : Nat) : Prop :=
  (w &&& 0xF000 = 0x5000 ∧ w &&& 0xF ≠ 0x0) ∨
  (w &&& 0xF000 = 0x8000 ∧ w &&& 0xF ≠ 0x0 ∧ w &&& 0xF ≠ 0x1 ∧ w &&& 0xF ≠ 0x2 ∧
    w &&& 0xF ≠ 0x3 ∧ w &&& 0xF ≠ 0x4 ∧ w &&& 0xF ≠ 0x5 ∧ w &&& 0xF ≠ 0x6 ∧
    w &&& 0xF ≠ 0x7 ∧ w &&& 0xF ≠ 0xE) ∨
  (w &&& 0xF000 = 0x9000 ∧ w &&& 0xF ≠ 0x0) ∨
  (w &&& 0xF000 = 0xE000 ∧ w &&& 0xFF ≠ 0x9E ∧ w &&& 0xFF ≠ 0xA1) ∨
  (w &&& 0xF000 = 0xF000 ∧ w &&& 0xFF ≠ 0x07 ∧ w &&& 0xFF ≠ 0x0A ∧ w &&& 0xFF ≠ 0x15 ∧
    w &&& 0xFF ≠ 0x18 ∧ w &&& 0xFF ≠ 0x1E ∧ w &&& 0xFF ≠ 0x29 ∧ w &&& 0xFF ≠ 0x33 ∧
    w &&& 0xFF ≠ 0x55 ∧ w &&& 0xFF ≠ 0x65)

instance instUnrecognizedOpDec (w : Nat) : Decidable (UnrecognizedOp w) := by
  unfold UnrecognizedOp
  infer_instance

/-- The instruction is an `Fx15` (writes the delay timer). -/
def DelayWrite (w : Nat) : Prop := w &&& 0xF000 = 0xF000 ∧ w &&& 0xFF = 0x15

instance instDelayWriteDec (w : Nat) : Decidable (DelayWrite w) := by
  unfold DelayWrite
  infer_instance

/-- The instruction is an `Fx18` (writes the sound timer). -/
def SoundWrite (w : Nat) : Prop := w &&& 0xF000 = 0xF000 ∧ w &&& 0xFF = 0x18

instance instSoundWriteDec (w : Nat) : Decidable (SoundWrite w) := by
  unfold SoundWrite
  infer_instance

/-- C1 scenario: `I = 0x300` points at byte `0xF0`, instruction `0xD001`
(`Dxy1` with `x = y = 0`, so `vx = vy = 0`), framebuffer all zero. -/
def c1State : Chip8 :=
  { baseState with mem := memOf [(0x200, 0xD0), (0x201, 0x01), (0x300, 0xF0)], i := 0x300 }

/-- C2 scenario: instruction `0xD011` (draw 8x1 at `(V0, V1)`) with
`V0 = 249`, `V1 = 28`: the checked first index is `31 + 28*8 = 255`, but the
unaligned second write goes to index `32 + 28*8 = 256`. -/
def c2State : Chip8 :=
  { baseState with
    mem := memOf [(0x200, 0xD0), (0x201, 0x11)],
    vregs := updV (updV baseState.vregs 0 249) 1 28 }

/-- C3 counterexample scenario: instruction `0xF00A` reaches the `todo!()`
arm. -/
def c3PanicState : Chip8 := { baseState with mem := memOf [(0x200, 0xF0), (0x201, 0x0A)] }

/-- C3 witness scenario: instruction `0x5001` is an unrecognized pattern. -/
def c3WitState : Chip8 := { baseState with mem := memOf [(0x200, 0x50), (0x201, 0x01)] }

/-- C4 counterexample scenario: `8xy4` with `x = 0xF`, `y = 0`, `VF = 1`,
`V0 = 0`: the sum is `1 ≤ 255`, so the claim demands `VF = 0`. -/
def c4CexState : Chip8 :=
  { baseState with
    mem := memOf [(0x200, 0x8F), (0x201, 0x04)],
    vregs := updV baseState.vregs 0xF 1 }

/-- C4 witness scenario: `0x8124` (`ADD V1, V2`) with `V1 = 200`,
`V2 = 100`. -/
def c4WitState : Chip8 :=
  { baseState with
    mem := memOf [(0x200, 0x81), (0x201, 0x24)],
    vregs := updV (updV baseState.vregs 1 200) 2 100 }

/-- C5 witness scenario: `0x2300` (CALL 0x300) at `0x200`, with a `00EE`
(RET) stored at `0x300`. -/
def c5WitState : Chip8 := { baseState with mem := memOf [(0x200, 0x23), (0x301, 0xEE)] }

/-- C6 scenario: `0xE09E` (`SKP V0`) with `V0 = 16`, a keyboard index
outside 0-15. -/
def c6State : Chip8 :=
  { baseState with
    mem := memOf [(0x200, 0xE0), (0x201, 0x9E)],
    vregs := updV baseState.vregs 0 16 }

/-- C7 counterexample scenario: `0x7F01` (`ADD VF, 1`) with `VF = 0`. -/
def c7CexState : Chip8 := { baseState with mem := memOf [(0x200, 0x7F), (0x201, 0x01)] }

/-- C7 witness scenario: `0x7005` (`ADD V0, 5`) with `V0 = 254`. -/
def c7WitState : Chip8 :=
  { baseState with
    mem := memOf [(0x200, 0x70), (0x201, 0x05)],
    vregs := updV baseState.vregs 0 254 }

/-- C8 counterexample scenario: `0xF015` (`LD DT, V0`) with `V0 = 77` and
`delay_timer = 5`. -/
def c8CexState : Chip8 :=
  { baseState with
    mem := memOf [(0x200, 0xF0), (0x201, 0x15)],
    vregs := updV baseState.vregs 0 77,
    delay_timer := 5 }

/-- C8 trace scenario: `delay_timer = 5` on an all-zero memory, so every
fetched word is `0x0000` (a SYS, ignored). -/
def c8TraceState : Chip8 := { baseState with delay_timer := 5 }

/-- C9 witness scenario: instruction `0x9001` is an unrecognized pattern, so
`step` returns `UnknownOpcode`; `delay_timer = 3` checks the tick. -/
def c9WitState : Chip8 :=
  { baseState with mem := memOf [(0x200, 0x90), (0x201, 0x01)], delay_timer := 3 }

/-- C1: evaluating the DRAW arm at the claim's own scenario (single-row
sprite `0xF0` at `(0, 0)` on an all-zero framebuffer): framebuffer byte 0
does become `0xF0`, but `VF` ends at `1`, not `0` — the code raises the flag
whenever the framebuffer changed at all (`fb_origin != fb_copy`), not only
on a set-to-unset transition, contradicting its own comment and the claim. -/
theorem c1_draw_blank_screen_sets_vf :
    (afterOk 0 c1State).map (fun t => (t.mem 0xF00, t.vregs 0xF)) = some (0xF0, 1) := by
  decide

/-- C2: `step` panics on an in-range-checked but unaligned bottom-right
draw: with `V0 = 249`, `V1 = 28`, instruction `0xD011`, the checked index is
`255` but the second byte of the split row is written at index `256`,
an out-of-bounds `Vec` index — the row is neither skipped nor clipped. -/
theorem c2_draw_oob_panics : step 0 c2State = .panic := by rfl

/-- C3 counterexample: the recognized form `Fx0A` (`LD Vx, K`) reaches the
`todo!()` placeholder, so `step` panics on the instruction word `0xF00A`
instead of never panicking. -/
theorem c3_fx0a_panics : step 0 c3PanicState = .panic := by rfl

/-- C4 counterexample: `8xy4` with `x = 0xF` (state `c4CexState`: `VF = 1`,
`V0 = 0`, sum `= 1 ≤ 255`): the claim demands `VF = 0` (the carry), but the
wrapped sum overwrites the carry and `VF` ends at `1`. -/
theorem c4_carry_overwritten_cex :
    (afterOk 0 c4CexState).map (fun t => t.vregs 0xF) = some 1 ∧
    ¬ ((afterOk 0 c4CexState).map (fun t => t.vregs 0xF) =
        some (if 255 < c4CexState.vregs 0xF + c4CexState.vregs 0 then 1 else 0)) := by
  decide

/-- C6: `Ex9E` with `V0 = 16` indexes the 16-entry keyboard array out of
bounds, so `step` panics instead of returning `WrongKey`. -/
theorem c6_skp_oob_panics : step 0 c6State = .panic := by rfl

/-- C7 counterexample: `7xkk` with `x = 0xF` (instruction `0x7F01`,
`VF = 0`): `VF` is the destination of the add and changes to `1`, so "leaves
VF unchanged" fails at `x = 0xF`. -/
theorem c7_vf_changed_cex :
    (afterOk 0 c7CexState).map (fun t => t.vregs 0xF) = some 1 ∧
    ¬ ((afterOk 0 c7CexState).map (fun t => t.vregs 0xF) = some (c7CexState.vregs 0xF)) := by
  decide

/-- C8 counterexample: a `step` executing `Fx15` (`LD DT, V0` with
`V0 = 77`) from `delay_timer = 5` ends with `delay_timer = 77`, not the
claimed decrement to `4`. -/
theorem c8_timer_overwritten_cex :
    c8CexState.delay_timer = 5 ∧
    (afterOk 0 c8CexState).map Chip8.delay_timer = some 77 ∧
    ¬ ((afterOk 0 c8CexState).map Chip8.delay_timer = some (c8CexState.delay_timer - 1)) := by
  decide

/-- `exec0` mutates nothing before an error return. -/
theorem exec0_err_eq {s : Chip8} {w : Nat} {e : Chip8Error} {t : Chip8}
    (h : exec0 s w = .err e t) : t = s := by
  unfold exec0 at h
  repeat' split at h
  all_goals simp_all

/-- `exec8` mutates nothing before an error return. -/
theorem exec8_err_eq {s : Chip8} {w : Nat} {e : Chip8Error} {t : Chip8}
    (h : exec8 s w = .err e t) : t = s := by
  unfold exec8 at h
  by_cases k0 : w &&& 0xF = 0x0
  · rw [if_pos k0] at h
    cases h
  rw [if_neg k0] at h
  by_cases k1 : w &&& 0xF = 0x1
  · rw [if_pos k1] at h
    cases h
  rw [if_neg k1] at h
  by_cases k2 : w &&& 0xF = 0x2
  · rw [if_pos k2] at h
    cases h
  rw [if_neg k2] at h
  by_cases k3 : w &&& 0xF = 0x3
  · rw [if_pos k3] at h
    cases h
  rw [if_neg k3] at h
  by_cases k4 : w &&& 0xF = 0x4
  · rw [if_pos k4] at h
    cases h
  rw [if_neg k4] at h
  by_cases k5 : w &&& 0xF = 0x5
  · rw [if_pos k5] at h
    cases h
  rw [if_neg k5] at h
  by_cases k6 : w &&& 0xF = 0x6
  · rw [if_pos k6] at h
    cases h
  rw [if_neg k6] at h
  by_cases k7 : w &&& 0xF = 0x7
  · rw [if_pos k7] at h
    cases h
  rw [if_neg k7] at h
  by_cases k8 : w &&& 0xF = 0xE
  · rw [if_pos k8] at h
    cases h
  rw [if_neg k8] at h
  injection h with h1 h2
  exact h2.symm

/-- `execD` never returns an error. -/
theorem execD_err_eq {s : Chip8} {w : Nat} {e : Chip8Error} {t : Chip8}
    (h : execD s w = .err e t) : t = s := by
  unfold execD at h
  by_cases kg : s.i + opN w ≤ MEMSIZE
  · rw [if_pos kg] at h
    dsimp only [] at h
    split at h
    · cases h
    · split at h
      · cases h
      · cases h
  · rw [if_neg kg] at h
    cases h

/-- `execE` mutates nothing before an error return. -/
theorem execE_err_eq {s : Chip8} {w : Nat} {e : Chip8Error} {t : Chip8}
    (h : execE s w = .err e t) : t = s := by
  unfold execE at h
  by_cases k0 : w &&& 0xFF = 0x9E
  · rw [if_pos k0] at h
    by_cases kb : s.vregs (opX w) < KEYBOARD_SIZE
    · rw [if_pos kb] at h; cases h
    · rw [if_neg kb] at h; cases h
  rw [if_neg k0] at h
  by_cases k1 : w &&& 0xFF = 0xA1
  · rw [if_pos k1] at h
    by_cases kb : s.vregs (opX w) < KEYBOARD_SIZE
    · rw [if_pos kb] at h; cases h
    · rw [if_neg kb] at h; cases h
  rw [if_neg k1] at h
  injection h with h1 h2
  exact h2.symm

/-- `execF` mutates nothing before an error return. -/
theorem execF_err_eq {s : Chip8} {w : Nat} {e : Chip8Error} {t : Chip8}
    (h : execF s w = .err e t) : t = s := by
  unfold execF at h
  by_cases k0 : w &&& 0xFF = 0x07
  · rw [if_pos k0] at h
    cases h
  rw [if_neg k0] at h
  by_cases k1 : w &&& 0xFF = 0x0A
  · rw [if_pos k1] at h
    cases h
  rw [if_neg k1] at h
  by_cases k2 : w &&& 0xFF = 0x15
  · rw [if_pos k2] at h
    cases h
  rw [if_neg k2] at h
  by_cases k3 : w &&& 0xFF = 0x18
  · rw [if_pos k3] at h
    cases h
  rw [if_neg k3] at h
  by_cases k4 : w &&& 0xFF = 0x1E
  · rw [if_pos k4] at h
    cases h
  rw [if_neg k4] at h
  by_cases k5 : w &&& 0xFF = 0x29
  · rw [if_pos k5] at h
    by_cases ki : 16 ≤ s.vregs (opX w)
    · rw [if_pos ki] at h
      injection h with h1 h2
      exact h2.symm
    · rw [if_neg ki] at h
      cases h
  rw [if_neg k5] at h
  by_cases k6 : w &&& 0xFF = 0x33
  · rw [if_pos k6] at h
    by_cases ki : s.i + 2 < MEMSIZE
    · rw [if_pos ki] at h; cases h
    · rw [if_neg ki] at h; cases h
  rw [if_neg k6] at h
  by_cases k7 : w &&& 0xFF = 0x55
  · rw [if_pos k7] at h
    by_cases ki : s.i + opX w < MEMSIZE
    · rw [if_pos ki] at h; cases h
    · rw [if_neg ki] at h; cases h
  rw [if_neg k7] at h
  by_cases k8 : w &&& 0xFF = 0x65
  · rw [if_pos k8] at h
    by_cases ki : s.i + opX w < MEMSIZE
    · rw [if_pos ki] at h; cases h
    · rw [if_neg ki] at h; cases h
  rw [if_neg k8] at h
  injection h with h1 h2
  exact h2.symm

/-- Every error return of the dispatch leaves the machine state exactly as
it was at dispatch time: each `return Err(..)` in `emulate_insn` happens
before any further mutation of `self`. -/
theorem execOp_err_eq {rnd : Nat} {u : Chip8} {w : Nat} {e : Chip8Error} {t : Chip8}
    (h : execOp rnd u w = .err e t) : t = u := by
  unfold execOp at h
  by_cases k0 : w &&& 0xF000 = 0x0000
  · rw [if_pos k0] at h
    exact exec0_err_eq h
  rw [if_neg k0] at h
  by_cases k1 : w &&& 0xF000 = 0x1000
  · rw [if_pos k1] at h
    cases h
  rw [if_neg k1] at h
  by_cases k2 : w &&& 0xF000 = 0x2000
  · rw [if_pos k2] at h
    cases h
  rw [if_neg k2] at h
  by_cases k3 : w &&& 0xF000 = 0x3000
  · rw [if_pos k3] at h
    cases h
  rw [if_neg k3] at h
  by_cases k4 : w &&& 0xF000 = 0x4000
  · rw [if_pos k4] at h
    cases h
  rw [if_neg k4] at h
  by_cases k5 : w &&& 0xF000 = 0x5000
  · rw [if_pos k5] at h
    by_cases ki : w &&& 0xF = 0x0
    · rw [if_pos ki] at h; cases h
    · rw [if_neg ki] at h
      injection h with h1 h2
      exact h2.symm
  rw [if_neg k5] at h
  by_cases k6 : w &&& 0xF000 = 0x6000
  · rw [if_pos k6] at h
    cases h
  rw [if_neg k6] at h
  by_cases k7 : w &&& 0xF000 = 0x7000
  · rw [if_pos k7] at h
    cases h
  rw [if_neg k7] at h
  by_cases k8 : w &&& 0xF000 = 0x8000
  · rw [if_pos k8] at h
    exact exec8_err_eq h
  rw [if_neg k8] at h
  by_cases k9 : w &&& 0xF000 = 0x9000
  · rw [if_pos k9] at h
    by_cases ki : w &&& 0xF = 0x0
    · rw [if_pos ki] at h; cases h
    · rw [if_neg ki] at h
      injection h with h1 h2
      exact h2.symm
  rw [if_neg k9] at h
  by_cases k10 : w &&& 0xF000 = 0xA000
  · rw [if_pos k10] at h
    cases h
  rw [if_neg k10] at h
  by_cases k11 : w &&& 0xF000 = 0xB000
  · rw [if_pos k11] at h
    cases h
  rw [if_neg k11] at h
  by_cases k12 : w &&& 0xF000 = 0xC000
  · rw [if_pos k12] at h
    cases h
  rw [if_neg k12] at h
  by_cases k13 : w &&& 0xF000 = 0xD000
  · rw [if_pos k13] at h
    exact execD_err_eq h
  rw [if_neg k13] at h
  by_cases k14 : w &&& 0xF000 = 0xE000
  · rw [if_pos k14] at h
    exact execE_err_eq h
  rw [if_neg k14] at h
  by_cases k15 : w &&& 0xF000 = 0xF000
  · rw [if_pos k15] at h
    exact execF_err_eq h
  rw [if_neg k15] at h
  injection h with h1 h2
  exact h2.symm

/-- C3 (amended): every fetched word that matches no recognized arm makes
`step` return `UnknownOpcode` carrying the raw word, with the state exactly
the post-tick state (PC advanced, timers ticked, nothing else changed). -/
theorem c3_unknown_dispatch (rnd : Nat) (s : Chip8)
    (hpc : s.pc + 1 < MEMSIZE) (hu : UnrecognizedOp (fetched s)) :
    step rnd s = .err (.UnknownOpcode (fetched s)) (tickAdvance s) := by
  unfold step emulateInsn
  rw [if_pos hpc]
  unfold execOp
  rcases hu with ⟨h1, h2⟩ | ⟨h1, h2, h3, h4, h5, h6, h7, h8, h9, hA⟩ | ⟨h1, h2⟩ |
    ⟨h1, h2, h3⟩ | ⟨h1, h2, h3, h4, h5, h6, h7, h8, h9, hA⟩
  · rw [h1]
    norm_num
    exact fun q => absurd q h2
  · rw [h1]
    norm_num
    unfold exec8
    rw [if_neg h2, if_neg h3, if_neg h4, if_neg h5, if_neg h6, if_neg h7, if_neg h8,
      if_neg h9, if_neg hA]
  · rw [h1]
    norm_num
    exact fun q => absurd q h2
  · rw [h1]
    norm_num
    unfold execE
    rw [if_neg h2, if_neg h3]
  · rw [h1]
    norm_num
    unfold execF
    rw [if_neg h2, if_neg h3, if_neg h4, if_neg h5, if_neg h6, if_neg h7, if_neg h8,
      if_neg h9, if_neg hA]

/-- Witness for C3's amended theorem at the unrecognized word `0x5001`. -/
theorem c3_unknown_dispatch_witness :
    step 0 c3WitState = .err (.UnknownOpcode (fetched c3WitState)) (tickAdvance c3WitState) :=
  c3_unknown_dispatch 0 c3WitState (by decide) (by decide)

/-- C9: whenever `step` returns an error, the resulting state differs from
the pre-call state only in PC (advanced by exactly 2) and the timers (each
nonzero one decremented by 1): registers, `I`, memory (hence framebuffer),
call stack and keyboard flags are unchanged. -/
theorem c9_error_frame (rnd : Nat) (s : Chip8) (e : Chip8Error) (t : Chip8)
    (h : step rnd s = .err e t) :
    t.pc = s.pc + 2 ∧ t.delay_timer = tickT s.delay_timer ∧
    t.sound_timer = tickT s.sound_timer ∧ t.vregs = s.vregs ∧ t.i = s.i ∧
    t.mem = s.mem ∧ t.sp = s.sp ∧ t.keyboard = s.keyboard := by
  unfold step emulateInsn at h
  by_cases hpc : s.pc + 1 < MEMSIZE
  · rw [if_pos hpc] at h
    have ht := execOp_err_eq h
    subst ht
    exact ⟨rfl, rfl, rfl, rfl, rfl, rfl, rfl, rfl⟩
  · rw [if_neg hpc] at h
    cases h

/-- Witness for C9 at the `0x9001` unknown-opcode error with
`delay_timer = 3`. -/
theorem c9_error_frame_witness :
    (tickAdvance c9WitState).pc = c9WitState.pc + 2 ∧
    (tickAdvance c9WitState).delay_timer = tickT c9WitState.delay_timer ∧
    (tickAdvance c9WitState).sound_timer = tickT c9WitState.sound_timer ∧
    (tickAdvance c9WitState).vregs = c9WitState.vregs ∧
    (tickAdvance c9WitState).i = c9WitState.i ∧
    (tickAdvance c9WitState).mem = c9WitState.mem ∧
    (tickAdvance c9WitState).sp = c9WitState.sp ∧
    (tickAdvance c9WitState).keyboard = c9WitState.keyboard :=
  c9_error_frame 0 c9WitState (.UnknownOpcode 0x9001) (tickAdvance c9WitState) (by rfl)

/-- `exec0` never touches the timers. -/
theorem exec0_timers {s : Chip8} {w : Nat} {t : Chip8}
    (h : outState (exec0 s w) = some t) :
    t.delay_timer = s.delay_timer ∧ t.sound_timer = s.sound_timer := by
  unfold exec0 at h
  by_cases k0 : w = 0x00E0
  · rw [if_pos k0] at h
    simp only [outState, Option.some.injEq] at h
    subst h
    exact ⟨rfl, rfl⟩
  rw [if_neg k0] at h
  by_cases k1 : w = 0x00EE
  · rw [if_pos k1] at h
    split at h
    · simp only [outState, Option.some.injEq] at h
      subst h
      exact ⟨rfl, rfl⟩
    · simp only [outState, Option.some.injEq] at h
      subst h
      exact ⟨rfl, rfl⟩
  rw [if_neg k1] at h
  simp only [outState, Option.some.injEq] at h
  subst h
  exact ⟨rfl, rfl⟩

/-- `exec8` never touches the timers. -/
theorem exec8_timers {s : Chip8} {w : Nat} {t : Chip8}
    (h : outState (exec8 s w) = some t) :
    t.delay_timer = s.delay_timer ∧ t.sound_timer = s.sound_timer := by
  unfold exec8 at h
  by_cases c0 : w &&& 0xF = 0x0
  · rw [if_pos c0] at h
    simp only [outState, Option.some.injEq] at h
    subst h
    exact ⟨rfl, rfl⟩
  rw [if_neg c0] at h
  by_cases c1 : w &&& 0xF = 0x1
  · rw [if_pos c1] at h
    simp only [outState, Option.some.injEq] at h
    subst h
    exact ⟨rfl, rfl⟩
  rw [if_neg c1] at h
  by_cases c2 : w &&& 0xF = 0x2
  · rw [if_pos c2] at h
    simp only [outState, Option.some.injEq] at h
    subst h
    exact ⟨rfl, rfl⟩
  rw [if_neg c2] at h
  by_cases c3 : w &&& 0xF = 0x3
  · rw [if_pos c3] at h
    simp only [outState, Option.some.injEq] at h
    subst h
    exact ⟨rfl, rfl⟩
  rw [if_neg c3] at h
  by_cases c4 : w &&& 0xF = 0x4
  · rw [if_pos c4] at h
    simp only [outState, Option.some.injEq] at h
    subst h
    exact ⟨rfl, rfl⟩
  rw [if_neg c4] at h
  by_cases c5 : w &&& 0xF = 0x5
  · rw [if_pos c5] at h
    simp only [outState, Option.some.injEq] at h
    subst h
    exact ⟨rfl, rfl⟩
  rw [if_neg c5] at h
  by_cases c6 : w &&& 0xF = 0x6
  · rw [if_pos c6] at h
    simp only [outState, Option.some.injEq] at h
    subst h
    exact ⟨rfl, rfl⟩
  rw [if_neg c6] at h
  by_cases c7 : w &&& 0xF = 0x7
  · rw [if_pos c7] at h
    simp only [outState, Option.some.injEq] at h
    subst h
    exact ⟨rfl, rfl⟩
  rw [if_neg c7] at h
  by_cases c8 : w &&& 0xF = 0xE
  · rw [if_pos c8] at h
    simp only [outState, Option.some.injEq] at h
    subst h
    exact ⟨rfl, rfl⟩
  rw [if_neg c8] at h
  simp only [outState, Option.some.injEq] at h
  subst h
  exact ⟨rfl, rfl⟩

/-- `execD` never touches the timers. -/
theorem execD_timers {s : Chip8} {w : Nat} {t : Chip8}
    (h : outState (execD s w) = some t) :
    t.delay_timer = s.delay_timer ∧ t.sound_timer = s.sound_timer := by
  unfold execD at h
  by_cases kg : s.i + opN w ≤ MEMSIZE
  · rw [if_pos kg] at h
    dsimp only [] at h
    split at h
    · exact Option.noConfusion h
    · split at h
      · simp only [outState, Option.some.injEq] at h
        subst h
        exact ⟨rfl, rfl⟩
      · simp only [outState, Option.some.injEq] at h
        subst h
        exact ⟨rfl, rfl⟩
  · rw [if_neg kg] at h
    exact Option.noConfusion h

/-- `execE` never touches the timers. -/
theorem execE_timers {s : Chip8} {w : Nat} {t : Chip8}
    (h : outState (execE s w) = some t) :
    t.delay_timer = s.delay_timer ∧ t.sound_timer = s.sound_timer := by
  unfold execE at h
  by_cases k0 : w &&& 0xFF = 0x9E
  · rw [if_pos k0] at h
    by_cases kb : s.vregs (opX w) < KEYBOARD_SIZE
    · rw [if_pos kb] at h
      simp only [outState, Option.some.injEq] at h
      subst h
      constructor <;> split <;> rfl
    · rw [if_neg kb] at h
      exact Option.noConfusion h
  rw [if_neg k0] at h
  by_cases k1 : w &&& 0xFF = 0xA1
  · rw [if_pos k1] at h
    by_cases kb : s.vregs (opX w) < KEYBOARD_SIZE
    · rw [if_pos kb] at h
      simp only [outState, Option.some.injEq] at h
      subst h
      constructor <;> split <;> rfl
    · rw [if_neg kb] at h
      exact Option.noConfusion h
  rw [if_neg k1] at h
  simp only [outState, Option.some.injEq] at h
  subst h
  exact ⟨rfl, rfl⟩

/-- `execF` only writes the delay timer in its `0x15` arm and the sound
timer in its `0x18` arm. -/
theorem execF_timers {s : Chip8} {w : Nat} {t : Chip8}
    (h : outState (execF s w) = some t) :
    (¬ w &&& 0xFF = 0x15 → t.delay_timer = s.delay_timer) ∧
    (¬ w &&& 0xFF = 0x18 → t.sound_timer = s.sound_timer) := by
  unfold execF at h
  by_cases c0 : w &&& 0xFF = 0x07
  · rw [if_pos c0] at h
    simp only [outState, Option.some.injEq] at h
    subst h
    exact ⟨fun q => rfl, fun q => rfl⟩
  rw [if_neg c0] at h
  by_cases c1 : w &&& 0xFF = 0x0A
  · rw [if_pos c1] at h
    exact Option.noConfusion h
  rw [if_neg c1] at h
  by_cases c2 : w &&& 0xFF = 0x15
  · rw [if_pos c2] at h
    simp only [outState, Option.some.injEq] at h
    subst h
    exact ⟨fun q => absurd c2 q, fun q => rfl⟩
  rw [if_neg c2] at h
  by_cases c3 : w &&& 0xFF = 0x18
  · rw [if_pos c3] at h
    simp only [outState, Option.some.injEq] at h
    subst h
    exact ⟨fun q => rfl, fun q => absurd c3 q⟩
  rw [if_neg c3] at h
  by_cases c4 : w &&& 0xFF = 0x1E
  · rw [if_pos c4] at h
    simp only [outState, Option.some.injEq] at h
    subst h
    exact ⟨fun q => rfl, fun q => rfl⟩
  rw [if_neg c4] at h
  by_cases c5 : w &&& 0xFF = 0x29
  · rw [if_pos c5] at h
    by_cases ki : 16 ≤ s.vregs (opX w)
    · rw [if_pos ki] at h
      simp only [outState, Option.some.injEq] at h
      subst h
      exact ⟨fun q => rfl, fun q => rfl⟩
    · rw [if_neg ki] at h
      simp only [outState, Option.some.injEq] at h
      subst h
      exact ⟨fun q => rfl, fun q => rfl⟩
  rw [if_neg c5] at h
  by_cases c6 : w &&& 0xFF = 0x33
  · rw [if_pos c6] at h
    by_cases ki : s.i + 2 < MEMSIZE
    · rw [if_pos ki] at h
      simp only [outState, Option.some.injEq] at h
      subst h
      exact ⟨fun q => rfl, fun q => rfl⟩
    · rw [if_neg ki] at h
      exact Option.noConfusion h
  rw [if_neg c6] at h
  by_cases c7 : w &&& 0xFF = 0x55
  · rw [if_pos c7] at h
    by_cases ki : s.i + opX w < MEMSIZE
    · rw [if_pos ki] at h
      simp only [outState, Option.some.injEq] at h
      subst h
      exact ⟨fun q => rfl, fun q => rfl⟩
    · rw [if_neg ki] at h
      exact Option.noConfusion h
  rw [if_neg c7] at h
  by_cases c8 : w &&& 0xFF = 0x65
  · rw [if_pos c8] at h
    by_cases ki : s.i + opX w < MEMSIZE
    · rw [if_pos ki] at h
      simp only [outState, Option.some.injEq] at h
      subst h
      exact ⟨fun q => rfl, fun q => rfl⟩
    · rw [if_neg ki] at h
      exact Option.noConfusion h
  rw [if_neg c8] at h
  simp only [outState, Option.some.injEq] at h
  subst h
  exact ⟨fun q => rfl, fun q => rfl⟩

/-- Dispatch-level timer frame: any non-panicking `execOp` outcome keeps
both timers unchanged, except that `Fx15` may change the delay timer and
`Fx18` the sound timer. -/
theorem execOp_timers {rnd : Nat} {u : Chip8} {w : Nat} {t : Chip8}
    (h : outState (execOp rnd u w) = some t) :
    (¬ DelayWrite w → t.delay_timer = u.delay_timer) ∧
    (¬ SoundWrite w → t.sound_timer = u.sound_timer) := by
  unfold execOp at h
  by_cases c0 : w &&& 0xF000 = 0x0000
  · rw [if_pos c0] at h
    have hp := exec0_timers h
    exact ⟨fun q => hp.1, fun q => hp.2⟩
  rw [if_neg c0] at h
  by_cases c1 : w &&& 0xF000 = 0x1000
  · rw [if_pos c1] at h
    simp only [outState, Option.some.injEq] at h
    subst h
    exact ⟨fun q => rfl, fun q => rfl⟩
  rw [if_neg c1] at h
  by_cases c2 : w &&& 0xF000 = 0x2000
  · rw [if_pos c2] at h
    simp only [outState, Option.some.injEq] at h
    subst h
    exact ⟨fun q => rfl, fun q => rfl⟩
  rw [if_neg c2] at h
  by_cases c3 : w &&& 0xF000 = 0x3000
  · rw [if_pos c3] at h
    simp only [outState, Option.some.injEq] at h
    subst h
    constructor <;> intro q <;> split <;> rfl
  rw [if_neg c3] at h
  by_cases c4 : w &&& 0xF000 = 0x4000
  · rw [if_pos c4] at h
    simp only [outState, Option.some.injEq] at h
    subst h
    constructor <;> intro q <;> split <;> rfl
  rw [if_neg c4] at h
  by_cases c5 : w &&& 0xF000 = 0x5000
  · rw [if_pos c5] at h
    by_cases ki : w &&& 0xF = 0x0
    · rw [if_pos ki] at h
      simp only [outState, Option.some.injEq] at h
      subst h
      constructor <;> intro q <;> split <;> rfl
    · rw [if_neg ki] at h
      simp only [outState, Option.some.injEq] at h
      subst h
      exact ⟨fun q => rfl, fun q => rfl⟩
  rw [if_neg c5] at h
  by_cases c6 : w &&& 0xF000 = 0x6000
  · rw [if_pos c6] at h
    simp only [outState, Option.some.injEq] at h
    subst h
    exact ⟨fun q => rfl, fun q => rfl⟩
  rw [if_neg c6] at h
  by_cases c7 : w &&& 0xF000 = 0x7000
  · rw [if_pos c7] at h
    simp only [outState, Option.some.injEq] at h
    subst h
    exact ⟨fun q => rfl, fun q => rfl⟩
  rw [if_neg c7] at h
  by_cases c8 : w &&& 0xF000 = 0x8000
  · rw [if_pos c8] at h
    have hp := exec8_timers h
    exact ⟨fun q => hp.1, fun q => hp.2⟩
  rw [if_neg c8] at h
  by_cases c9 : w &&& 0xF000 = 0x9000
  · rw [if_pos c9] at h
    by_cases ki : w &&& 0xF = 0x0
    · rw [if_pos ki] at h
      simp only [outState, Option.some.injEq] at h
      subst h
      constructor <;> intro q <;> split <;> rfl
    · rw [if_neg ki] at h
      simp only [outState, Option.some.injEq] at h
      subst h
      exact ⟨fun q => rfl, fun q => rfl⟩
  rw [if_neg c9] at h
  by_cases c10 : w &&& 0xF000 = 0xA000
  · rw [if_pos c10] at h
    simp only [outState, Option.some.injEq] at h
    subst h
    exact ⟨fun q => rfl, fun q => rfl⟩
  rw [if_neg c10] at h
  by_cases c11 : w &&& 0xF000 = 0xB000
  · rw [if_pos c11] at h
    simp only [outState, Option.some.injEq] at h
    subst h
    exact ⟨fun q => rfl, fun q => rfl⟩
  rw [if_neg c11] at h
  by_cases c12 : w &&& 0xF000 = 0xC000
  · rw [if_pos c12] at h
    simp only [outState, Option.some.injEq] at h
    subst h
    exact ⟨fun q => rfl, fun q => rfl⟩
  rw [if_neg c12] at h
  by_cases c13 : w &&& 0xF000 = 0xD000
  · rw [if_pos c13] at h
    have hp := execD_timers h
    exact ⟨fun q => hp.1, fun q => hp.2⟩
  rw [if_neg c13] at h
  by_cases c14 : w &&& 0xF000 = 0xE000
  · rw [if_pos c14] at h
    have hp := execE_timers h
    exact ⟨fun q => hp.1, fun q => hp.2⟩
  rw [if_neg c14] at h
  by_cases c15 : w &&& 0xF000 = 0xF000
  · rw [if_pos c15] at h
    have hp := execF_timers h
    refine ⟨fun q => hp.1 (fun r => q ⟨c15, r⟩), fun q => hp.2 (fun r => q ⟨c15, r⟩)⟩
  rw [if_neg c15] at h
  simp only [outState, Option.some.injEq] at h
  subst h
  exact ⟨fun q => rfl, fun q => rfl⟩

/-- C8 (amended): every `step` first ticks both timers (decrement by 1 if
nonzero, floor at 0), and any non-panicking outcome keeps the ticked values
unless the executed instruction itself writes a timer (`Fx15` for delay,
`Fx18` for sound); concretely, from `delay_timer = 5` on SYS instructions,
five steps reach 0 and a sixth leaves it at 0. -/
theorem c8_timer_tick :
    (∀ rnd s s', outState (step rnd s) = some s' →
      (¬ DelayWrite (fetched s) → s'.delay_timer = tickT s.delay_timer) ∧
      (¬ SoundWrite (fetched s) → s'.sound_timer = tickT s.sound_timer)) ∧
    (List.range 7).map (fun k => (stepsOk 0 k c8TraceState).map Chip8.delay_timer) =
      [some 5, some 4, some 3, some 2, some 1, some 0, some 0] := by
  constructor
  · intro rnd s s' h
    unfold step emulateInsn at h
    by_cases hpc : s.pc + 1 < MEMSIZE
    · rw [if_pos hpc] at h
      exact execOp_timers h
    · rw [if_neg hpc] at h
      exact Option.noConfusion h
  · decide

/-- Witness for C8's amended theorem: one SYS step from `delay_timer = 5`. -/
theorem c8_timer_tick_witness :
    (tickAdvance c8TraceState).delay_timer = tickT c8TraceState.delay_timer ∧
    (tickAdvance c8TraceState).sound_timer = tickT c8TraceState.sound_timer := by
  have hp := c8_timer_tick.1 0 c8TraceState (tickAdvance c8TraceState) (by rfl)
  exact ⟨hp.1 (by decide), hp.2 (by decide)⟩

/-- C4 (amended): `8xy4` always leaves `Vx = (Vx + Vy) mod 256` (sum taken
over the pre-instruction registers); the carry flag `VF = (sum > 255)` is
observed only when `x ≠ 0xF` — for `x = 0xF` the wrapped sum overwrites the
carry, so `VF` ends at `(VF + Vy) mod 256`. -/
theorem c4_add_carry (rnd : Nat) (s : Chip8) (w : Nat)
    (hpc : s.pc + 1 < MEMSIZE) (hw : fetched s = w)
    (hhi : w &&& 0xF000 = 0x8000) (hlo : w &&& 0xF = 0x4) :
    ∃ s', step rnd s = .ok s' ∧
      s'.vregs (opX w) = (s.vregs (opX w) + s.vregs (opY w)) % 256 ∧
      (opX w ≠ 0xF →
        s'.vregs 0xF = if 255 < s.vregs (opX w) + s.vregs (opY w) then 1 else 0) ∧
      (opX w = 0xF → s'.vregs 0xF = (s.vregs 0xF + s.vregs (opY w)) % 256) := by
  refine ⟨{ tickAdvance s with vregs :=
      (updV (updV s.vregs 0xF (if 255 < s.vregs (opX w) + s.vregs (opY w) then 1 else 0))
        (opX w) ((s.vregs (opX w) + s.vregs (opY w)) % 256)) }, ?_, ?_, ?_, ?_⟩
  · unfold step emulateInsn
    rw [if_pos hpc, hw]
    unfold execOp
    rw [hhi]
    norm_num
    unfold exec8
    rw [hlo]
    norm_num
    rfl
  · simp [updV]
  · intro hx
    simp only [updV]
    rw [if_neg (fun q => hx q.symm)]
    simp
  · intro hx
    simp [updV, hx]

/-- Witness for C4's amended theorem at `ADD V1, V2` with `V1 = 200`,
`V2 = 100`. -/
theorem c4_add_carry_witness :
    ∃ s', step 0 c4WitState = .ok s' ∧
      s'.vregs (opX 0x8124) =
        (c4WitState.vregs (opX 0x8124) + c4WitState.vregs (opY 0x8124)) % 256 ∧
      (opX 0x8124 ≠ 0xF →
        s'.vregs 0xF =
          if 255 < c4WitState.vregs (opX 0x8124) + c4WitState.vregs (opY 0x8124) then 1
          else 0) ∧
      (opX 0x8124 = 0xF →
        s'.vregs 0xF = (c4WitState.vregs 0xF + c4WitState.vregs (opY 0x8124)) % 256) :=
  c4_add_carry 0 c4WitState 0x8124 (by decide) (by decide) (by decide) (by decide)

/-- C5: a `2nnn` call followed by the `00EE` return stored at `nnn` brings
PC back to exactly the instruction after the call and restores the stack
depth. -/
theorem c5_call_ret (rnd1 rnd2 : Nat) (s : Chip8) (w : Nat)
    (hpc : s.pc + 1 < MEMSIZE) (hw : fetched s = w) (hhi : w &&& 0xF000 = 0x2000)
    (hm0 : s.mem (opNNN w) = 0x00) (hm1 : s.mem (opNNN w + 1) = 0xEE)
    (hnnn : opNNN w + 1 < MEMSIZE) :
    ∃ s1 s2, step rnd1 s = .ok s1 ∧ step rnd2 s1 = .ok s2 ∧
      s2.pc = s.pc + 2 ∧ s2.sp.length = s.sp.length := by
  refine ⟨{ tickAdvance s with
            sp := ((tickAdvance s).pc :: (tickAdvance s).sp),
            pc := opNNN w },
          { tickAdvance { tickAdvance s with
              sp := ((tickAdvance s).pc :: (tickAdvance s).sp),
              pc := opNNN w } with
            pc := (tickAdvance s).pc,
            sp := (tickAdvance s).sp }, ?_, ?_, ?_, ?_⟩
  · unfold step emulateInsn
    rw [if_pos hpc, hw]
    unfold execOp
    rw [hhi]
    norm_num
  · unfold step emulateInsn
    rw [if_pos (show _ + 1 < MEMSIZE from hnnn)]
    rw [show fetched { tickAdvance s with
          sp := ((tickAdvance s).pc :: (tickAdvance s).sp),
          pc := opNNN w } = 0xEE from by
      show ((s.mem (opNNN w)) <<< 8) ||| (s.mem (opNNN w + 1)) = 0xEE
      rw [hm0, hm1]
      decide]
    rfl
  · rfl
  · rfl

/-- Witness for C5 at `CALL 0x300` from `0x200` with a RET at `0x300`. -/
theorem c5_call_ret_witness :
    ∃ s1 s2, step 0 c5WitState = .ok s1 ∧ step 0 s1 = .ok s2 ∧
      s2.pc = c5WitState.pc + 2 ∧ s2.sp.length = c5WitState.sp.length :=
  c5_call_ret 0 0 c5WitState 0x2300 (by decide) (by decide) (by decide) (by decide)
    (by decide) (by decide)

/-- C7 (amended): `7xkk` wraps `Vx` to `(Vx + kk) mod 256` without panicking
and writes no other register — in particular `VF` is untouched whenever
`x ≠ 0xF`; for `x = 0xF` the add targets `VF` itself (still no carry is
written). -/
theorem c7_add_imm (rnd : Nat) (s : Chip8) (w : Nat)
    (hpc : s.pc + 1 < MEMSIZE) (hw : fetched s = w)
    (hhi : w &&& 0xF000 = 0x7000) :
    ∃ s', step rnd s = .ok s' ∧
      s'.vregs (opX w) = (s.vregs (opX w) + opKK w) % 256 ∧
      ∀ j, j ≠ opX w → s'.vregs j = s.vregs j := by
  refine ⟨{ tickAdvance s with vregs :=
      (updV s.vregs (opX w) ((s.vregs (opX w) + opKK w) % 256)) }, ?_, ?_, ?_⟩
  · unfold step emulateInsn
    rw [if_pos hpc, hw]
    unfold execOp
    rw [hhi]
    norm_num
    rfl
  · simp [updV]
  · intro j hj
    simp [updV, hj]

/-- Witness for C7's amended theorem at `ADD V0, 5` with `V0 = 254`. -/
theorem c7_add_imm_witness :
    ∃ s', step 0 c7WitState = .ok s' ∧
      s'.vregs (opX 0x7005) = (c7WitState.vregs (opX 0x7005) + opKK 0x7005) % 256 ∧
      ∀ j, j ≠ opX 0x7005 → s'.vregs j = c7WitState.vregs j :=
  c7_add_imm 0 c7WitState 0x7005 (by decide) (by decide) (by decide)

/-- C10: `set_key` with an index ≥ 16 is a complete no-op, and with an index
< 16 it sets exactly that keyboard flag and changes nothing else. -/
theorem c10_set_key (s : Chip8) (k : Nat) (p : Bool) :
    (16 ≤ k → setKey s k p = s) ∧
    (k < 16 →
      (setKey s k p).keyboard k = p ∧
      (∀ j, j ≠ k → (setKey s k p).keyboard j = s.keyboard j) ∧
      (setKey s k p).mem = s.mem ∧ (setKey s k p).pc = s.pc ∧
      (setKey s k p).sp = s.sp ∧ (setKey s k p).vregs = s.vregs ∧
      (setKey s k p).i = s.i ∧ (setKey s k p).delay_timer = s.delay_timer ∧
      (setKey s k p).sound_timer = s.sound_timer) := by
  constructor
  · intro hk
    unfold setKey
    rw [if_neg (show ¬ k < KEYBOARD_SIZE from by unfold KEYBOARD_SIZE; omega)]
  · intro hk
    unfold setKey
    rw [if_pos (show k < KEYBOARD_SIZE from hk)]
    exact ⟨by simp, fun j hj => by simp [hj], rfl, rfl, rfl, rfl, rfl, rfl, rfl⟩

/-- Witness for C10 at the out-of-range index 20 and the in-range index 3. -/
theorem c10_set_key_witness :
    ((16 : Nat) ≤ 20 ∧ setKey baseState 20 true = baseState) ∧
    ((3 : Nat) < 16 ∧ (setKey baseState 3 true).keyboard 3 = true) :=
  ⟨⟨by decide, (c10_set_key baseState 20 true).1 (by decide)⟩,
   ⟨by decide, ((c10_set_key baseState 3 true).2 (by decide)).1⟩⟩

end Chip8Emu
